import Mathlib

/-!
Shallow embedding of `ical2org.py` (nelson-liu/ical2org): the conversion
engine `Convertor.__call__`, the time formatters `org_datetime` / `org_date`,
the CLI timezone check `check_timezone`, and the `--days` option range.

Modelling conventions:
* A calendar date is an `Int`: the number of days since 1970-01-01
  (`daysFromCivil` / `civilFromDays` convert to and from year/month/day,
  following the standard civil-calendar algorithms).
* A zone-aware instant (`datetime.datetime`) is an `Int`: minutes since
  1970-01-01T00:00 UTC (the claims need minute precision only, matching the
  `%H:%M` output format).
* A timezone is its fixed UTC offset in minutes (east positive).  The system
  local timezone is threaded explicitly as `localOffset`, because Python's
  `datetime.astimezone` applied to a *naive* datetime presumes the naive value
  is in the system local zone before converting.
* Python string operations are modelled on `List Char`; `str.replace` becomes
  `pyReplace` (leftmost, non-overlapping rewriting, as CPython does for a
  non-empty pattern).  `'\n'.join(s.split('\\n'))` is the same rewriting with
  pattern `\n` (two characters) and replacement a newline, since
  `split`-then-`join` on a non-empty separator substitutes each leftmost
  non-overlapping occurrence.
* Fallible Python code (KeyError on a missing `SUMMARY`, pandoc conversion
  errors, icalendar parse errors) is modelled with `Except String`.
-/

namespace Ical2Org

/-- Civil date (year, month, day) from a count of days since 1970-01-01, by
the standard civil-calendar algorithm.  Lean's `/` on `Int` floors for a
positive divisor, so the era needs no negative-value adjustment and all later
quantities are non-negative. -/
def civilFromDays (z : Int) : Int × Int × Int :=
  let z' := z + 719468
  let era := z' / 146097
  let doe := z' - era * 146097
  let yoe := (doe - doe / 1460 + doe / 36524 - doe / 146096) / 365
  let y := yoe + era * 400
  let doy := doe - (365 * yoe + yoe / 4 - yoe / 100)
  let mp := (5 * doy + 2) / 153
  let d := doy - (153 * mp + 2) / 5 + 1
  let m := mp + (if mp < 10 then 3 else -9)
  (y + (if m ≤ 2 then 1 else 0), m, d)

/-- Days since 1970-01-01 from a civil date (year, month, day). -/
def daysFromCivil (y m d : Int) : Int :=
  let y' := y - (if m ≤ 2 then 1 else 0)
  let era := y' / 400
  let yoe := y' - era * 400
  let doy := (153 * (m + (if m > 2 then -3 else 9)) + 2) / 5 + d - 1
  let doe := yoe * 365 + yoe / 4 - yoe / 100 + doy
  era * 146097 + doe - 719468

/-- Three-letter weekday abbreviation (strftime `%a`, C locale) for a weekday
index with 0 = Monday. -/
def dowName (w : Int) : String :=
  if w = 0 then "Mon"
  else if w = 1 then "Tue"
  else if w = 2 then "Wed"
  else if w = 3 then "Thu"
  else if w = 4 then "Fri"
  else if w = 5 then "Sat"
  else "Sun"

/-- Weekday index (0 = Monday) of a day count; 1970-01-01 was a Thursday. -/
def dayOfWeek (z : Int) : Int := (z + 3) % 7

/-- Zero-pad to two digits (strftime `%m`, `%d`, `%H`, `%M`). -/
def pad2 (n : Int) : String :=
  if n < 10 then "0" ++ toString n else toString n

/-- Zero-pad to four digits (strftime `%Y`). -/
def pad4 (n : Int) : String :=
  if n < 10 then "000" ++ toString n
  else if n < 100 then "00" ++ toString n
  else if n < 1000 then "0" ++ toString n
  else toString n

/-- strftime wildcard fill for a bare date stamp: the text of
the pattern `<%Y-%m-%d %a>` at day count `z`. -/
def fmtDate (z : Int) : String :=
  match civilFromDays z with
  | (y, m, d) =>
    "<" ++ pad4 y ++ "-" ++ pad2 m ++ "-" ++ pad2 d ++ " " ++ dowName (dayOfWeek z) ++ ">"

/-- strftime fill for a timed stamp: the text of the pattern
`<%Y-%m-%d %a %H:%M>` at day count `z` and minute-of-day `mins`. -/
def fmtDateTime (z : Int) (mins : Int) : String :=
  match civilFromDays z with
  | (y, m, d) =>
    "<" ++ pad4 y ++ "-" ++ pad2 m ++ "-" ++ pad2 d ++ " " ++ dowName (dayOfWeek z)
      ++ " " ++ pad2 (mins / 60) ++ ":" ++ pad2 (mins % 60) ++ ">"

/-- Embedding of `org_datetime(dt, tz)` (ical2org.py line 30): the zone-aware
instant `absMin` (minutes since the epoch, UTC) is converted to the target
zone offset `tzOffset` and rendered as `<YYYY-MM-DD DOW HH:MM>`. -/
def org_datetime (absMin tzOffset : Int) : String :=
  let shown := absMin + tzOffset
  fmtDateTime (shown / 1440) (shown % 1440)

/-- Embedding of `org_date(d, tz)` (ical2org.py line 37): the date is combined
with midnight into a *naive* datetime, and `astimezone` presumes a naive value
is in the system local zone (offset `localOffset`) before converting it to the
target zone (offset `tzOffset`); the converted datetime's date is rendered as
`<YYYY-MM-DD DOW>`. -/
def org_date (d localOffset tzOffset : Int) : String :=
  let naiveMin := d * 1440
  let absMin := naiveMin - localOffset
  let shown := absMin + tzOffset
  fmtDate (shown / 1440)

/-- Fuel-indexed scan underlying `pyReplace`: scan left to right, substitute
each leftmost non-overlapping occurrence of the pattern.  Each step consumes
at least one character, so fuel equal to the list length always suffices for
a non-empty pattern; structural recursion on the fuel keeps the function
kernel-reducible. -/
def pyReplaceF (pat rep : List Char) : Nat → List Char → List Char
  | 0, l => l
  | _ + 1, [] => []
  | fuel + 1, c :: cs =>
    if pat ≠ [] ∧ pat.isPrefixOf (c :: cs) then
      rep ++ pyReplaceF pat rep fuel ((c :: cs).drop pat.length)
    else
      c :: pyReplaceF pat rep fuel cs

/-- CPython `str.replace(pat, rep)` for a non-empty pattern, on character
lists: scan left to right, substitute each leftmost non-overlapping
occurrence.  (`'\n'.join(s.split(pat))` for a non-empty `pat` performs the
same substitution with replacement a newline.) -/
def pyReplace (pat rep : List Char) (l : List Char) : List Char :=
  pyReplaceF pat rep l.length l

/-- String-level wrapper for `pyReplace`. -/
def pyReplaceS (s pat rep : String) : String :=
  ⟨pyReplace pat.data rep.data s.data⟩

/-- Comma unescaping `s.replace('\\,', ',')` as applied to SUMMARY, LOCATION
and DESCRIPTION (ical2org.py lines 73, 76, 97). -/
def unescapeCommas (s : String) : String := pyReplaceS s "\\," ","

/-- Newline unescaping `'\n'.join(s.split('\\n'))` (ical2org.py line 96):
each literal two-character backslash-n becomes a real newline. -/
def unescapeNewlines (s : String) : String := pyReplaceS s "\\n" "\n"

/-- Value of a DTSTART/DTEND field as delivered by icalendar's `.dt`: either a
bare `datetime.date` (day count) or a zone-aware `datetime.datetime`
(absolute minutes since the epoch, UTC). -/
inductive DTValue where
  | date (d : Int)
  | datetime (m : Int)
deriving DecidableEq, Repr

/-- One recurrence-expanded event record as handed over by
`recurring_ical_events.of(cal).between(start, end)`.  SUMMARY, LOCATION and
DESCRIPTION may be absent (`none`); DTSTART and DTEND are always produced by
the expansion service. -/
structure RawEvent where
  SUMMARY : Option String
  LOCATION : Option String
  DESCRIPTION : Option String
  DTSTART : DTValue
  DTEND : DTValue
deriving DecidableEq, Repr

/-- Immutable per-run configuration of `Convertor` (ical2org.py line 48):
the resolved target timezone and the location toggle, plus the system local
timezone offset that Python's naive `astimezone` consults. -/
structure Config where
  tzOffset : Int
  localOffset : Int
  includeLocation : Bool
deriving DecidableEq, Repr

/-- Python truthiness of an optional string (`None` and the empty string are
falsy). -/
def optTruthy : Option String → Bool
  | some s => s ≠ ""
  | none => false

/-- Title derivation of `Convertor.__call__` (ical2org.py lines 72-80):
`summary = event["SUMMARY"]` raises KeyError when SUMMARY is absent; a present
SUMMARY and a truthy LOCATION are comma-unescaped; if neither is truthy the
title is the placeholder, otherwise the unescaped location is appended after
a separator when it is truthy and the location toggle is on. -/
def deriveTitle (includeLocation : Bool) (ev : RawEvent) : Except String String :=
  match ev.SUMMARY with
  | none => .error "KeyError: SUMMARY"
  | some rawS =>
    let summary := unescapeCommas rawS
    let location : Option String :=
      match ev.LOCATION with
      | some rawL => if rawL ≠ "" then some (unescapeCommas rawL) else none
      | none => none
    if summary = "" ∧ optTruthy location = false then
      .ok "(No title)"
    else
      .ok (summary ++
        match location with
        | some loc => if loc ≠ "" ∧ includeLocation then " - " ++ loc else ""
        | none => "")

/-- Timestamp line of `Convertor.__call__` (ical2org.py lines 83-91): a
datetime DTSTART is rendered with `org_datetime` in the configured zone
together with DTEND; a bare-date DTSTART is rendered with `org_date` in UTC
(offset 0) together with DTEND minus one day.  The code dispatches on
DTSTART's type only and would fail at runtime on a kind mismatch with DTEND;
that case is modelled as an error. -/
def stampLine (cfg : Config) (ev : RawEvent) : Except String String :=
  match ev.DTSTART, ev.DTEND with
  | .datetime s, .datetime e =>
    .ok ("  " ++ org_datetime s cfg.tzOffset ++ "--" ++ org_datetime e cfg.tzOffset ++ "\n")
  | .date s, .date e =>
    .ok ("  " ++ org_date s cfg.localOffset 0 ++ "--" ++ org_date (e - 1) cfg.localOffset 0 ++ "\n")
  | _, _ => .error "TypeError: mismatched DTSTART/DTEND kinds"

/-- Body rendering of `Convertor.__call__` (ical2org.py lines 94-97) for a
truthy DESCRIPTION: if the markup sniffer (BeautifulSoup `find`) detects a
structural element the external converter (pypandoc, which may fail) replaces
the text; then literal backslash-n escapes become newlines and literal
backslash-comma escapes become commas. -/
def renderBody (sniff : String → Bool) (convert : String → Except String String)
    (desc : String) : Except String String :=
  match (if sniff desc then convert desc else .ok desc) with
  | .error e => .error e
  | .ok d1 => .ok (unescapeCommas (unescapeNewlines d1))

/-- The writes `Convertor.__call__` performs for one event (ical2org.py lines
71-99), with the bytes actually written before any exception: the title is
computed before the first write, the heading is written before the timestamp
line, both are written before the body is rendered, and a successful body is
written followed by the unconditional blank separator line. -/
def eventWrites (cfg : Config) (sniff : String → Bool)
    (convert : String → Except String String) (ev : RawEvent) :
    String × Option String :=
  match deriveTitle cfg.includeLocation ev with
  | .error e => ("", some e)
  | .ok title =>
    match stampLine cfg ev with
    | .error e => ("* " ++ title ++ "\n", some e)
    | .ok st =>
      let pre := "* " ++ title ++ "\n" ++ st
      match ev.DESCRIPTION with
      | some d =>
        if d ≠ "" then
          match renderBody sniff convert d with
          | .error e => (pre, some e)
          | .ok b => (pre ++ b ++ "\n" ++ "\n", none)
        else (pre ++ "\n", none)
      | none => (pre ++ "\n", none)

/-- The event loop of `Convertor.__call__` (ical2org.py lines 71-99) over the
expanded event list, threading the output sink contents: each event's bytes
are appended in turn; the first exception aborts the loop with the bytes
written so far still in the sink. -/
def runEvents (cfg : Config) (sniff : String → Bool)
    (convert : String → Except String String) :
    List RawEvent → String → String × Option String
  | [], acc => (acc, none)
  | ev :: rest, acc =>
    match eventWrites cfg sniff convert ev with
    | (w, some e) => (acc ++ w, some e)
    | (w, none) => runEvents cfg sniff convert rest (acc ++ w)

/-- Embedding of `Convertor.__call__` end to end (ical2org.py lines 60-99): a calendar
decode failure is re-raised as `IcalError("Parsing error: ...")` before any
write; otherwise the expanded events are processed in order starting from an
empty sink. -/
def convertorCall (cfg : Config) (sniff : String → Bool)
    (convert : String → Except String String)
    (decoded : Except String (List RawEvent)) : String × Option String :=
  match decoded with
  | .error e => ("", some ("Parsing error: " ++ e))
  | .ok events => runEvents cfg sniff convert events ""

/-- Outcome of the CLI layer for one invocation: messages echoed to the
console, the process exit code, and the bytes present in the output sink. -/
structure CLIResult where
  msgs : List String
  exitCode : Int
  sink : String
deriving DecidableEq, Repr

/-- Embedding of `check_timezone` (ical2org.py lines 101-106): a click callback run while
parameters are parsed; `None` and registry members pass through, any other
value echoes the error message and the usage hint and exits with status 1. -/
def check_timezone (registry : List String) (value : Option String) :
    Except (List String) (Option String) :=
  match value with
  | none => .ok none
  | some v =>
    if v ∈ registry then .ok (some v)
    else .error ["Invalid timezone value " ++ v ++ ".",
                 "Use --print-timezones to show acceptable values."]

/-- Modelled from click's `IntRange(0, clamp=True)` (ical2org.py line 129):
with `clamp=True` an out-of-range value is silently clamped to the nearest
bound instead of being rejected, so any negative `--days` becomes 0. -/
def parseDaysOption (v : Int) : Int :=
  if v < 0 then 0 else v

/-- Window start `now - timedelta(days=days)` (ical2org.py line 68), in minutes. -/
def windowStart (now days : Int) : Int := now - days * 1440

/-- Window end `now + timedelta(days=days)` (ical2org.py line 69), in minutes. -/
def windowEnd (now days : Int) : Int := now + days * 1440

/-- The `main` entry point (ical2org.py lines 116-151) as observed at the
process boundary.  click runs the `--timezone` callback while parsing the
parameter list, in declaration order, before the `ORG_FILE` argument is
opened and before `Convertor` runs, so an invalid timezone value echoes its
two messages and exits 1 with nothing in the sink; otherwise the convertor
runs and an `IcalError` is echoed and turned into a non-zero `click.Abort`
exit. -/
def mainRun (registry : List String) (tzArg : Option String) (cfg : Config)
    (sniff : String → Bool) (convert : String → Except String String)
    (decoded : Except String (List RawEvent)) : CLIResult :=
  match check_timezone registry tzArg with
  | .error msgs => { msgs := msgs, exitCode := 1, sink := "" }
  | .ok _ =>
    match convertorCall cfg sniff convert decoded with
    | (out, some e) => { msgs := [e], exitCode := 1, sink := out }
    | (out, none) => { msgs := [], exitCode := 0, sink := out }

/-- The spec's description of body unescaping, as one left-to-right pass:
each literal two-character backslash-n escape becomes a real line break, each
literal backslash-comma becomes a plain comma, and every other character is
kept unchanged.  Stated independently of the code's two sequential
`replace`-style passes, to be compared with them. -/
def specUnescape : List Char → List Char
  | [] => []
  | [c] => [c]
  | c1 :: c2 :: rest =>
    if c1 = '\\' ∧ c2 = 'n' then '\n' :: specUnescape rest
    else if c1 = '\\' ∧ c2 = ',' then ',' :: specUnescape rest
    else c1 :: specUnescape (c2 :: rest)

/-- Recursion principle consuming one or two leading characters at a time,
matching the shape of `specUnescape`. -/
def charListRec {motive : List Char → Prop} (h0 : motive [])
    (h1 : ∀ c, motive [c])
    (h2 : ∀ c1 c2 t, motive t → motive (c2 :: t) → motive (c1 :: c2 :: t)) :
    ∀ l, motive l
  | [] => h0
  | [c] => h1 c
  | c1 :: c2 :: t => h2 c1 c2 t (charListRec h0 h1 h2 t) (charListRec h0 h1 h2 (c2 :: t))

/-- Concatenation of a list of written strings, in order. -/
def joinAll (l : List String) : String := l.foldr (· ++ ·) ""

/-- Example run configuration: target timezone UTC, system local timezone
UTC, locations included. -/
def exCfg : Config where
  tzOffset := 0
  localOffset := 0
  includeLocation := true

/-- Example run configuration on a machine whose local timezone is UTC+11
(e.g. Australia/Sydney in summer), converting with target timezone UTC. -/
def exCfgSydney : Config where
  tzOffset := 0
  localOffset := 660
  includeLocation := true

/-- Example markup sniffer: detects a structural element exactly in the
string used by the failing example event. -/
def exSniff : String → Bool := fun s => s == "<b>x</b>"

/-- Example external markup converter: fails on the marked-up string, like
pandoc rejecting an input. -/
def exConvert : String → Except String String := fun s =>
  if s == "<b>x</b>" then .error "pandoc: conversion failed" else .ok s

/-- Example all-day event: 2024-03-01 with exclusive end 2024-03-03 and a
plain-text description with escaped newline and comma. -/
def exEv1 : RawEvent where
  SUMMARY := some "Standup"
  LOCATION := some "Room\\, 5"
  DESCRIPTION := some "line1\\nline2\\, end"
  DTSTART := .date (daysFromCivil 2024 3 1)
  DTEND := .date (daysFromCivil 2024 3 3)

/-- Example timed event whose description triggers the markup sniffer and
makes the external converter fail. -/
def exEv2 : RawEvent where
  SUMMARY := some "Bad"
  LOCATION := none
  DESCRIPTION := some "<b>x</b>"
  DTSTART := .datetime (19783 * 1440 + 600)
  DTEND := .datetime (19783 * 1440 + 660)

/-- Example event with SUMMARY entirely absent. -/
def exEvNoSummary : RawEvent where
  SUMMARY := none
  LOCATION := some "here"
  DESCRIPTION := none
  DTSTART := .date 0
  DTEND := .date 1

/-- Example event with empty SUMMARY and empty LOCATION. -/
def exEvEmpty : RawEvent where
  SUMMARY := some ""
  LOCATION := some ""
  DESCRIPTION := none
  DTSTART := .date 0
  DTEND := .date 1

/-- Example all-day event without optional fields, 2024-03-01 to the
exclusive end 2024-03-03. -/
def exAllDay : RawEvent where
  SUMMARY := some "Trip"
  LOCATION := none
  DESCRIPTION := none
  DTSTART := .date (daysFromCivil 2024 3 1)
  DTEND := .date (daysFromCivil 2024 3 3)

theorem pyReplaceF_nil_list (pat rep : List Char) :
    ∀ fuel, pyReplaceF pat rep fuel [] = []
  | 0 => rfl
  | _ + 1 => rfl

theorem pyReplaceF_fuel_congr (pat rep : List Char) :
    ∀ (fuel₁ fuel₂ : Nat) (l : List Char), l.length ≤ fuel₁ → l.length ≤ fuel₂ →
      pyReplaceF pat rep fuel₁ l = pyReplaceF pat rep fuel₂ l := by
  intro fuel₁
  induction fuel₁ with
  | zero =>
    intro fuel₂ l h1 _
    have hl : l = [] := List.eq_nil_of_length_eq_zero (Nat.le_zero.mp h1)
    subst hl
    rw [pyReplaceF_nil_list, pyReplaceF_nil_list]
  | succ f₁ ih =>
    intro fuel₂ l h1 h2
    cases l with
    | nil => rw [pyReplaceF_nil_list, pyReplaceF_nil_list]
    | cons c cs =>
      cases fuel₂ with
      | zero => simp at h2
      | succ f₂ =>
        simp only [pyReplaceF]
        simp only [List.length_cons] at h1 h2
        split
        · next hcond =>
          refine congrArg (rep ++ ·) (ih f₂ _ ?_ ?_) <;>
          · have hp : 1 ≤ pat.length := List.length_pos.mpr hcond.1
            simp only [List.length_drop, List.length_cons]
            omega
        · exact congrArg (c :: ·) (ih f₂ cs (by omega) (by omega))

theorem pyReplace_nil (pat rep : List Char) : pyReplace pat rep [] = [] := rfl

theorem pyReplace_cons_pos (pat rep : List Char) (c : Char) (cs : List Char)
    (h1 : pat ≠ []) (h2 : pat.isPrefixOf (c :: cs)) :
    pyReplace pat rep (c :: cs) = rep ++ pyReplace pat rep ((c :: cs).drop pat.length) := by
  show pyReplaceF pat rep (c :: cs).length (c :: cs) = _
  rw [List.length_cons]
  simp only [pyReplaceF, if_pos (And.intro h1 h2)]
  refine congrArg (rep ++ ·) (pyReplaceF_fuel_congr pat rep _ _ _ ?_ le_rfl)
  have hp : 1 ≤ pat.length := List.length_pos.mpr h1
  simp only [List.length_drop, List.length_cons]
  omega

theorem pyReplace_cons_neg (pat rep : List Char) (c : Char) (cs : List Char)
    (h : ¬(pat ≠ [] ∧ pat.isPrefixOf (c :: cs) = true)) :
    pyReplace pat rep (c :: cs) = c :: pyReplace pat rep cs := by
  show pyReplaceF pat rep (c :: cs).length (c :: cs) = _
  rw [List.length_cons]
  simp only [pyReplaceF, if_neg h]
  rfl

theorem pyReplace_ne_nil (pat rep : List Char) (hrep : rep ≠ []) (l : List Char)
    (hl : l ≠ []) : pyReplace pat rep l ≠ [] := by
  cases l with
  | nil => exact absurd rfl hl
  | cons c cs =>
    show pyReplaceF pat rep (c :: cs).length (c :: cs) ≠ []
    rw [List.length_cons]
    simp only [pyReplaceF]
    split
    · exact fun hco => hrep (List.append_eq_nil.mp hco).1
    · exact List.cons_ne_nil c _

theorem f1_nn (t : List Char) :
    pyReplace ['\\', 'n'] ['\n'] ('\\' :: 'n' :: t) = '\n' :: pyReplace ['\\', 'n'] ['\n'] t := by
  rw [pyReplace_cons_pos _ _ _ _ (by decide) (by simp [List.isPrefixOf])]
  rfl

theorem f2_cc (t : List Char) :
    pyReplace ['\\', ','] [','] ('\\' :: ',' :: t) = ',' :: pyReplace ['\\', ','] [','] t := by
  rw [pyReplace_cons_pos _ _ _ _ (by decide) (by simp [List.isPrefixOf])]
  rfl

theorem f1_head_ne (c : Char) (cs : List Char) (h : c ≠ '\\') :
    pyReplace ['\\', 'n'] ['\n'] (c :: cs) = c :: pyReplace ['\\', 'n'] ['\n'] cs := by
  rw [pyReplace_cons_neg]
  simp [List.isPrefixOf, Ne.symm h]

theorem f2_head_ne (c : Char) (cs : List Char) (h : c ≠ '\\') :
    pyReplace ['\\', ','] [','] (c :: cs) = c :: pyReplace ['\\', ','] [','] cs := by
  rw [pyReplace_cons_neg]
  simp [List.isPrefixOf, Ne.symm h]

theorem f1_snd_ne (c : Char) (cs : List Char) (h : c ≠ 'n') :
    pyReplace ['\\', 'n'] ['\n'] ('\\' :: c :: cs)
      = '\\' :: pyReplace ['\\', 'n'] ['\n'] (c :: cs) := by
  rw [pyReplace_cons_neg]
  simp [List.isPrefixOf, Ne.symm h]

theorem f2_snd_ne (c : Char) (cs : List Char) (h : c ≠ ',') :
    pyReplace ['\\', ','] [','] ('\\' :: c :: cs)
      = '\\' :: pyReplace ['\\', ','] [','] (c :: cs) := by
  rw [pyReplace_cons_neg]
  simp [List.isPrefixOf, Ne.symm h]

theorem f1_single (c : Char) : pyReplace ['\\', 'n'] ['\n'] [c] = [c] := by
  rw [pyReplace_cons_neg, pyReplace_nil]
  simp [List.isPrefixOf]

theorem f2_single (c : Char) : pyReplace ['\\', ','] [','] [c] = [c] := by
  rw [pyReplace_cons_neg, pyReplace_nil]
  simp [List.isPrefixOf]

theorem specUnescape_cons2 (c1 c2 : Char) (t : List Char) :
    specUnescape (c1 :: c2 :: t)
      = if c1 = '\\' ∧ c2 = 'n' then '\n' :: specUnescape t
        else if c1 = '\\' ∧ c2 = ',' then ',' :: specUnescape t
        else c1 :: specUnescape (c2 :: t) := rfl

theorem f1_head_ne_comma (c : Char) (t : List Char) (hc : c ≠ ',') :
    ∃ h tl, pyReplace ['\\', 'n'] ['\n'] (c :: t) = h :: tl ∧ h ≠ ',' := by
  by_cases hb : c = '\\'
  · subst hb
    match t with
    | [] => exact ⟨'\\', [], f1_single '\\', by decide⟩
    | d :: t' =>
      by_cases hd : d = 'n'
      · subst hd
        exact ⟨'\n', pyReplace ['\\', 'n'] ['\n'] t', f1_nn t', by decide⟩
      · exact ⟨'\\', pyReplace ['\\', 'n'] ['\n'] (d :: t'), f1_snd_ne d t' hd, by decide⟩
  · exact ⟨c, pyReplace ['\\', 'n'] ['\n'] t, f1_head_ne c t hb, hc⟩

theorem replace_eq_specUnescape (l : List Char) :
    pyReplace ['\\', ','] [','] (pyReplace ['\\', 'n'] ['\n'] l) = specUnescape l := by
  induction l using charListRec with
  | h0 => rw [pyReplace_nil, pyReplace_nil, specUnescape]
  | h1 c => rw [f1_single, f2_single, specUnescape]
  | h2 c1 c2 t ih ih2 =>
    rw [specUnescape_cons2]
    by_cases hb : c1 = '\\'
    · subst hb
      by_cases hn : c2 = 'n'
      · subst hn
        rw [f1_nn, f2_head_ne _ _ (by decide), if_pos ⟨rfl, rfl⟩, ih]
      · by_cases hcm : c2 = ','
        · subst hcm
          rw [f1_snd_ne _ _ (by decide), f1_head_ne _ _ (by decide), f2_cc,
            if_neg (by simp), if_pos ⟨rfl, rfl⟩, ih]
        · obtain ⟨h, tl, heq, hne⟩ := f1_head_ne_comma c2 t hcm
          rw [f1_snd_ne _ _ hn, heq, f2_snd_ne _ _ hne, ← heq,
            if_neg (by simp [hn]), if_neg (by simp [hcm]), ih2]
    · rw [f1_head_ne _ _ hb, f2_head_ne _ _ hb,
        if_neg (by simp [hb]), if_neg (by simp [hb]), ih2]

theorem unescape_eq_specUnescape (s : String) :
    unescapeCommas (unescapeNewlines s) = ⟨specUnescape s.data⟩ :=
  congrArg String.mk (replace_eq_specUnescape s.data)

theorem org_date_eq_fmtDate (d loc tz : Int) (h1 : 0 ≤ tz - loc) (h2 : tz - loc < 1440) :
    org_date d loc tz = fmtDate d := by
  show fmtDate ((d * 1440 - loc + tz) / 1440) = fmtDate d
  have he : d * 1440 - loc + tz = (tz - loc) + d * 1440 := by ring
  rw [he, Int.add_mul_ediv_right _ _ (by norm_num : (1440 : Int) ≠ 0),
    Int.ediv_eq_zero_of_lt h1 h2, zero_add]

theorem runEvents_all_ok (cfg : Config) (sniff : String → Bool)
    (convert : String → Except String String) (events : List RawEvent) :
    ∀ acc : String, (∀ ev ∈ events, (eventWrites cfg sniff convert ev).2 = none) →
      runEvents cfg sniff convert events acc
        = (acc ++ joinAll (events.map fun ev => (eventWrites cfg sniff convert ev).1),
            none) := by
  induction events with
  | nil =>
    intro acc _
    simp [runEvents, joinAll, String.append_empty]
  | cons ev rest ih =>
    intro acc hall
    have hev := hall ev (List.mem_cons_self ev rest)
    rcases hw : eventWrites cfg sniff convert ev with ⟨w, err⟩
    rw [hw] at hev
    simp only at hev
    subst hev
    simp only [runEvents, hw]
    rw [ih (acc ++ w) (fun e he => hall e (List.mem_cons_of_mem ev he))]
    simp only [List.map_cons, joinAll, List.foldr_cons, hw]
    rw [String.append_assoc]

theorem runEvents_first_fail (cfg : Config) (sniff : String → Bool)
    (convert : String → Except String String) (bad : RawEvent) (rest : List RawEvent)
    (e : String) (good : List RawEvent) :
    ∀ acc : String, (∀ ev ∈ good, (eventWrites cfg sniff convert ev).2 = none) →
      (eventWrites cfg sniff convert bad).2 = some e →
      runEvents cfg sniff convert (good ++ bad :: rest) acc
        = (acc ++ joinAll (good.map fun ev => (eventWrites cfg sniff convert ev).1)
            ++ (eventWrites cfg sniff convert bad).1, some e) := by
  induction good with
  | nil =>
    intro acc _ hbad
    rcases hw : eventWrites cfg sniff convert bad with ⟨w, err⟩
    rw [hw] at hbad
    simp only at hbad
    subst hbad
    simp only [List.nil_append, runEvents, hw]
    simp [joinAll, String.append_empty]
  | cons g grest ih =>
    intro acc hall hbad
    have hg := hall g (List.mem_cons_self g grest)
    rcases hw : eventWrites cfg sniff convert g with ⟨w, err⟩
    rw [hw] at hg
    simp only at hg
    subst hg
    simp only [List.cons_append, runEvents, hw, List.append_eq]
    rw [ih (acc ++ w) (fun x hx => hall x (List.mem_cons_of_mem g hx)) hbad]
    simp only [List.map_cons, joinAll, List.foldr_cons, hw]
    simp only [String.append_assoc]

theorem runEvents_shift (cfg : Config) (sniff : String → Bool)
    (convert : String → Except String String) (events : List RawEvent) :
    ∀ acc : String,
      runEvents cfg sniff convert events acc
        = (acc ++ (runEvents cfg sniff convert events "").1,
            (runEvents cfg sniff convert events "").2) := by
  induction events with
  | nil =>
    intro acc
    simp [runEvents, String.append_empty]
  | cons ev rest ih =>
    intro acc
    rcases hw : eventWrites cfg sniff convert ev with ⟨w, err⟩
    cases err with
    | some e =>
      simp only [runEvents, hw]
      rw [String.empty_append]
    | none =>
      simp only [runEvents, hw]
      rw [ih (acc ++ w), ih ("" ++ w), String.empty_append, String.append_assoc]

theorem unescapeCommas_ne_empty (s : String) (h : s ≠ "") : unescapeCommas s ≠ "" := by
  intro hc
  have hd : s.data ≠ [] := fun he => h (String.ext (by rw [he]))
  exact pyReplace_ne_nil "\\,".data ",".data (by decide) s.data hd (congrArg String.data hc)

/-- Claim C1 (amended): a decode failure aborts with zero bytes in the sink;
when every event converts cleanly the sink holds exactly the concatenation of
all event blocks; but when the external converter fails on one event's body,
the blocks of all preceding events plus the failing event's heading and
timestamp lines remain in the sink (the write is incremental, not
all-or-nothing), and the converter error itself strikes only after that
event's heading and timestamp lines were written. -/
theorem convertor_failure_output (cfg : Config) (sniff : String → Bool)
    (convert : String → Except String String) :
    (∀ e, convertorCall cfg sniff convert (.error e)
        = ("", some ("Parsing error: " ++ e)))
  ∧ (∀ events, (∀ ev ∈ events, (eventWrites cfg sniff convert ev).2 = none) →
      convertorCall cfg sniff convert (.ok events)
        = (joinAll (events.map fun ev => (eventWrites cfg sniff convert ev).1), none))
  ∧ (∀ good bad rest e, (∀ ev ∈ good, (eventWrites cfg sniff convert ev).2 = none) →
      (eventWrites cfg sniff convert bad).2 = some e →
      convertorCall cfg sniff convert (.ok (good ++ bad :: rest))
        = (joinAll (good.map fun ev => (eventWrites cfg sniff convert ev).1)
            ++ (eventWrites cfg sniff convert bad).1, some e))
  ∧ (∀ ev title st d e, deriveTitle cfg.includeLocation ev = .ok title →
      stampLine cfg ev = .ok st → ev.DESCRIPTION = some d → d ≠ "" →
      renderBody sniff convert d = .error e →
      eventWrites cfg sniff convert ev = ("* " ++ title ++ "\n" ++ st, some e)) := by
  refine ⟨fun e => rfl, fun events hall => ?_, fun good bad rest e hall hbad => ?_, ?_⟩
  · show runEvents cfg sniff convert events "" = _
    rw [runEvents_all_ok cfg sniff convert events "" hall, String.empty_append]
  · show runEvents cfg sniff convert (good ++ bad :: rest) "" = _
    rw [runEvents_first_fail cfg sniff convert bad rest e good "" hall hbad,
      String.empty_append]
  · intro ev title st d e h1 h2 h3 h4 h5
    simp only [eventWrites, h1, h2, h3, h5]
    rw [if_pos h4]

/-- Claim C1 witness: on a run with one clean event followed by one whose
body conversion fails, the sink ends up with the first block plus the failing
event's heading and timestamp lines, and the error propagates. -/
theorem convertor_failure_output_witness :
    convertorCall exCfg exSniff exConvert (Except.ok ([exEv1] ++ exEv2 :: []))
      = (joinAll ([exEv1].map fun ev => (eventWrites exCfg exSniff exConvert ev).1)
          ++ (eventWrites exCfg exSniff exConvert exEv2).1,
          some "pandoc: conversion failed") :=
  (convertor_failure_output exCfg exSniff exConvert).2.2.1 [exEv1] exEv2 []
    "pandoc: conversion failed" (by decide) (by decide)

/-- Claim C1 counterexample: a run aborted by a converter failure has already
written a non-empty byte sequence to the sink, contradicting the
zero-bytes-on-fatal-error reading. -/
theorem convertor_leftover_output_cex :
    (convertorCall exCfg exSniff exConvert (Except.ok [exEv1, exEv2])).2
        = some "pandoc: conversion failed"
      ∧ (convertorCall exCfg exSniff exConvert (Except.ok [exEv1, exEv2])).1 ≠ "" :=
  ⟨rfl, by decide⟩

/-- Claim C2 (amended): title derivation never fails whenever the SUMMARY
field is present, even with the empty value and with LOCATION and DESCRIPTION
absent; an event whose SUMMARY is entirely absent, however, raises a KeyError
(the code reads SUMMARY with a bare subscript, unlike LOCATION and
DESCRIPTION). -/
theorem normalize_total_when_summary_present (il : Bool) (ev : RawEvent) (s : String)
    (h : ev.SUMMARY = some s) : ∃ t, deriveTitle il ev = .ok t := by
  simp only [deriveTitle, h]
  split
  · exact ⟨_, rfl⟩
  · exact ⟨_, rfl⟩

/-- Claim C2 witness: an event carrying the empty SUMMARY and the empty
LOCATION normalizes without error. -/
theorem normalize_total_witness :
    ∃ t, deriveTitle true exEvEmpty = .ok t :=
  normalize_total_when_summary_present true exEvEmpty "" rfl

/-- Claim C2 counterexample: an event whose SUMMARY is entirely absent makes
title derivation, and hence the per-event conversion, fail with a KeyError. -/
theorem normalize_missing_summary_cex :
    deriveTitle true exEvNoSummary = .error "KeyError: SUMMARY"
      ∧ (eventWrites exCfg exSniff exConvert exEvNoSummary).2
          = some "KeyError: SUMMARY" :=
  ⟨rfl, rfl⟩

/-- Claim C3 (amended): for an all-day event the engine renders DTSTART and
DTEND minus one day with the date formatter in UTC; on a machine whose local
timezone offset is non-positive (UTC or west of it) the displayed dates equal
DTSTART and the raw exclusive DTEND minus one day, and the spec's example
renders as stated; a local timezone east of UTC shifts both displayed dates
back one day because the naive midnight is presumed local before the UTC
conversion. -/
theorem allday_stamp_end_minus_one (cfg : Config) (ev : RawEvent) (s e : Int)
    (h1 : ev.DTSTART = .date s) (h2 : ev.DTEND = .date e)
    (h3 : -1440 < cfg.localOffset) (h4 : cfg.localOffset ≤ 0) :
    stampLine cfg ev = .ok ("  " ++ fmtDate s ++ "--" ++ fmtDate (e - 1) ++ "\n") := by
  simp only [stampLine, h1, h2]
  rw [org_date_eq_fmtDate _ _ _ (by omega) (by omega),
    org_date_eq_fmtDate _ _ _ (by omega) (by omega)]

/-- Claim C3 witness: with the local timezone UTC, the all-day event
2024-03-01 with exclusive end 2024-03-03 renders exactly the stamp line of
the spec's example. -/
theorem allday_stamp_witness :
    stampLine exCfg exAllDay
      = .ok ("  " ++ fmtDate (daysFromCivil 2024 3 1) ++ "--"
          ++ fmtDate (daysFromCivil 2024 3 3 - 1) ++ "\n")
      ∧ ("  " ++ fmtDate (daysFromCivil 2024 3 1) ++ "--"
          ++ fmtDate (daysFromCivil 2024 3 3 - 1) ++ "\n")
          = "  <2024-03-01 Fri>--<2024-03-02 Sat>\n" :=
  ⟨allday_stamp_end_minus_one exCfg exAllDay (daysFromCivil 2024 3 1)
      (daysFromCivil 2024 3 3) rfl rfl (by decide) (by decide), by decide⟩

/-- Claim C3 counterexample: the same event on a machine with local timezone
UTC+11 renders both displayed dates one day early, not the stamp line the
claim states. -/
theorem allday_stamp_shift_cex :
    stampLine exCfgSydney exAllDay = .ok "  <2024-02-29 Thu>--<2024-03-01 Fri>\n"
      ∧ ("  <2024-02-29 Thu>--<2024-03-01 Fri>\n" : String)
          ≠ "  <2024-03-01 Fri>--<2024-03-02 Sat>\n" :=
  ⟨rfl, by decide⟩

/-- Claim C4 (amended): the date formatter preserves the calendar date
exactly when the target zone's offset is at least the system local zone's
offset and less than a day greater (in particular whenever the two zones
agree); outside that band the presumed-local naive midnight lands on a
different date after conversion. -/
theorem org_date_preserves_date (d loc tz : Int) (h1 : 0 ≤ tz - loc)
    (h2 : tz - loc < 1440) : org_date d loc tz = fmtDate d :=
  org_date_eq_fmtDate d loc tz h1 h2

/-- Claim C4 witness: from a local zone west of UTC (UTC-8), the rendered
date in UTC equals the input date 2024-03-01. -/
theorem org_date_preserves_date_witness :
    org_date (daysFromCivil 2024 3 1) (-480) 0 = fmtDate (daysFromCivil 2024 3 1)
      ∧ fmtDate (daysFromCivil 2024 3 1) = "<2024-03-01 Fri>" :=
  ⟨org_date_preserves_date (daysFromCivil 2024 3 1) (-480) 0 (by decide) (by decide),
    by decide⟩

/-- Claim C4 counterexample: from a local zone at UTC+11, formatting
2024-03-01 in UTC renders 2024-02-29 — the combine-with-midnight-and-rezone
step does shift the rendered date. -/
theorem org_date_shift_cex :
    org_date (daysFromCivil 2024 3 1) 660 0 = "<2024-02-29 Thu>"
      ∧ org_date (daysFromCivil 2024 3 1) 660 0 ≠ fmtDate (daysFromCivil 2024 3 1) :=
  ⟨rfl, by decide⟩

/-- Claim C5: with no structural markup detected, a present description is
emitted unchanged except that each literal backslash-n escape becomes a real
line break and each literal backslash-comma becomes a plain comma (the
single-pass `specUnescape`); with markup detected, the converter's output
replaces the text and the same two unescaping steps apply to it. -/
theorem body_rendering_unescape (sniff : String → Bool)
    (convert : String → Except String String) (d : String) :
    (sniff d = false → renderBody sniff convert d = .ok ⟨specUnescape d.data⟩)
  ∧ (∀ c, sniff d = true → convert d = .ok c →
      renderBody sniff convert d = .ok ⟨specUnescape c.data⟩) := by
  constructor
  · intro h
    simp only [renderBody, h, Bool.false_eq_true, if_false]
    rw [unescape_eq_specUnescape]
  · intro c h hc
    simp only [renderBody, h, if_true, hc]
    rw [unescape_eq_specUnescape]

/-- Claim C5 witness: a markup-free description with escaped newline and
comma renders to the plainly unescaped text. -/
theorem body_rendering_witness :
    renderBody exSniff exConvert "a\\nb\\,c" = .ok ⟨specUnescape "a\\nb\\,c".data⟩
      ∧ (⟨specUnescape "a\\nb\\,c".data⟩ : String) = "a\nb,c" :=
  ⟨(body_rendering_unescape exSniff exConvert "a\\nb\\,c").1 (by decide), by decide⟩

/-- Claim C6: a timezone identifier outside the registry makes the process
echo the error message and the usage hint, exit with the non-zero status 1,
and leave the output sink with zero bytes, before any conversion begins. -/
theorem invalid_timezone_exits_clean (registry : List String) (v : String)
    (cfg : Config) (sniff : String → Bool) (convert : String → Except String String)
    (decoded : Except String (List RawEvent)) (h : v ∉ registry) :
    (mainRun registry (some v) cfg sniff convert decoded).exitCode ≠ 0
      ∧ (mainRun registry (some v) cfg sniff convert decoded).sink = ""
      ∧ (mainRun registry (some v) cfg sniff convert decoded).msgs
          = ["Invalid timezone value " ++ v ++ ".",
              "Use --print-timezones to show acceptable values."] := by
  simp only [mainRun, check_timezone, if_neg h]
  norm_num

/-- Claim C6 witness: the unregistered identifier Mars/Olympus exits 1 with
nothing written and the two messages echoed. -/
theorem invalid_timezone_witness :
    (mainRun ["UTC", "US/Pacific"] (some "Mars/Olympus") exCfg exSniff exConvert
        (Except.ok [exEv1])).exitCode ≠ 0
      ∧ (mainRun ["UTC", "US/Pacific"] (some "Mars/Olympus") exCfg exSniff exConvert
          (Except.ok [exEv1])).sink = ""
      ∧ (mainRun ["UTC", "US/Pacific"] (some "Mars/Olympus") exCfg exSniff exConvert
          (Except.ok [exEv1])).msgs
          = ["Invalid timezone value " ++ "Mars/Olympus" ++ ".",
              "Use --print-timezones to show acceptable values."] :=
  invalid_timezone_exits_clean ["UTC", "US/Pacific"] "Mars/Olympus" exCfg exSniff
    exConvert (Except.ok [exEv1]) (by decide)

/-- Claim C7: when the SUMMARY is present but empty and the LOCATION is
absent or empty, the rendered title is exactly the placeholder. -/
theorem title_fallback_no_title (il : Bool) (ev : RawEvent)
    (h1 : ev.SUMMARY = some "") (h2 : ev.LOCATION = none ∨ ev.LOCATION = some "") :
    deriveTitle il ev = .ok "(No title)" := by
  rcases h2 with h2 | h2 <;>
    simp [deriveTitle, h1, h2, optTruthy, unescapeCommas, pyReplaceS, pyReplace,
      pyReplaceF]

/-- Claim C7 witness: the event with empty SUMMARY and empty LOCATION renders
the placeholder title. -/
theorem title_fallback_witness :
    deriveTitle true exEvEmpty = .ok "(No title)" :=
  title_fallback_no_title true exEvEmpty rfl (Or.inr rfl)

/-- Claim C8: with non-empty SUMMARY, non-empty LOCATION and the location
toggle on, the title is the comma-unescaped SUMMARY, the separator, and the
comma-unescaped LOCATION. -/
theorem title_location_suffix (ev : RawEvent) (s l : String)
    (h1 : ev.SUMMARY = some s) (h2 : ev.LOCATION = some l)
    (h3 : s ≠ "") (h4 : l ≠ "") :
    deriveTitle true ev = .ok (unescapeCommas s ++ " - " ++ unescapeCommas l) := by
  have hl' : unescapeCommas l ≠ "" := unescapeCommas_ne_empty l h4
  simp only [deriveTitle, h1, h2, if_pos h4]
  rw [if_neg, if_pos ⟨hl', trivial⟩, String.append_assoc]
  intro hcon
  exact absurd hcon.2 (by simp [optTruthy, hl'])

/-- Claim C8 witness: SUMMARY Standup with LOCATION Room backslash-comma 5
renders the title of the spec's example. -/
theorem title_location_suffix_witness :
    deriveTitle true exEv1 = .ok "Standup - Room, 5" :=
  (title_location_suffix exEv1 "Standup" "Room\\, 5" rfl rfl (by decide)
    (by decide)).trans (by rfl)

/-- Claim C9: the engine is deterministic and append-only — over the same
configuration, collaborators and expanded event list, runs started from any
two sink states append the identical byte sequence and finish with the
identical error status, so two runs over the same inputs produce
byte-identical output. -/
theorem conversion_deterministic (cfg : Config) (sniff : String → Bool)
    (convert : String → Except String String) (events : List RawEvent)
    (s₁ s₂ : String) :
    ∃ out err,
      runEvents cfg sniff convert events s₁ = (s₁ ++ out, err)
        ∧ runEvents cfg sniff convert events s₂ = (s₂ ++ out, err) :=
  ⟨(runEvents cfg sniff convert events "").1,
    (runEvents cfg sniff convert events "").2,
    runEvents_shift cfg sniff convert events s₁,
    runEvents_shift cfg sniff convert events s₂⟩

/-- Claim C10: a negative value passed to the days option is silently clamped
to 0 rather than rejected, and the clamped value yields the zero-radius
window collapsed onto the current instant. -/
theorem days_clamped_nonnegative (v now : Int) (h : v < 0) :
    parseDaysOption v = 0
      ∧ windowStart now (parseDaysOption v) = now
      ∧ windowEnd now (parseDaysOption v) = now := by
  have h0 : parseDaysOption v = 0 := by simp [parseDaysOption, h]
  refine ⟨h0, ?_, ?_⟩ <;> simp [h0, windowStart, windowEnd]

/-- Claim C10 witness: the value -5 is clamped to 0 and collapses the window
onto its center. -/
theorem days_clamped_witness :
    parseDaysOption (-5) = 0
      ∧ windowStart 0 (parseDaysOption (-5)) = 0
      ∧ windowEnd 0 (parseDaysOption (-5)) = 0 :=
  days_clamped_nonnegative (-5) 0 (by decide)

end Ical2Org
